import Mathlib

/-!
A shallow embedding, in Lean 4, of the cell-labeller web application
(an interactive image-annotation tool).  Numeric values of the source
(JavaScript numbers) are modelled as exact rationals `ℚ`; where a claim is
specifically about IEEE-754 non-finite results, an explicit extended-number
type `JSNum` with signed infinities and NaN is used instead.  Raster mask
surfaces are modelled as the journal of draw operations applied to them,
and the opaque encoded blob produced by `toDataURL` as that journal.
-/

namespace CellLabeller

/-- A 2-D coordinate, from `src/types` (`Point`). -/
structure Point where
  x : ℚ
  y : ℚ
deriving DecidableEq, Repr

/-- A bounding box in the source's order `[ymin, xmin, ymax, xmax]`,
normalized to `[0,1]` (from `src/types`, the `bbox` 4-tuple of
`CellAnnotation`). -/
structure Bbox where
  ymin : ℚ
  xmin : ℚ
  ymax : ℚ
  xmax : ℚ
deriving DecidableEq, Repr

/-- A region annotation, from `src/types` (the interface named
`CellAnnotation`). -/
structure CellAnnotation where
  id : String
  bbox : Bbox
  confidence : ℚ
  label : String
deriving DecidableEq, Repr

/-- The `toDataURL` encoding of a mask surface is modelled as the journal of
draw operations that produced its raster content (PNG encoding abstracted as
the identity on content). -/
inductive CompositeMode where
  | sourceOver
  | destinationOut
deriving DecidableEq, Repr

/-- One draw operation recorded on the mask surface. -/
inductive MaskOp where
  /-- `ctx.arc(x, y, r, 0, 2π)` followed by `ctx.fill()` under the given
  composite mode and fill style (the `paint` function of `CanvasBoard`). -/
  | disc (center : Point) (radius : ℚ) (mode : CompositeMode) (fillStyle : String)
  /-- One filled ellipse from `drawAIAnnotations` in `src/utils/canvasUtils.ts`. -/
  | aiEllipse (cx cy rx ry : ℚ) (fillStyle : String)
deriving DecidableEq, Repr

/-- The offscreen mask canvas of `CanvasBoard` (`maskCanvasRef`): a raster
surface at the active image's native resolution, represented by its
dimensions and the journal of operations drawn since the last clear. -/
structure MaskCanvas where
  width : ℕ
  height : ℕ
  ops : List MaskOp
deriving DecidableEq, Repr

/-- A project image record, from `src/types` (`ProjectImage`).  `maskData`
holds the encoded mask blob (modelled as the draw-op journal) or `none`. -/
structure ProjectImage where
  id : String
  name : String
  src : String
  width : ℕ
  height : ℕ
  annotations : List CellAnnotation
  maskData : Option (List MaskOp)
deriving DecidableEq, Repr

/-- The tool modes, from `src/types` (`ToolMode`). -/
inductive ToolMode where
  | PAN
  | BRUSH
  | ERASER
  | PICKER
deriving DecidableEq, Repr

/-! ## Transform utility (`src/utils/canvasUtils.ts`) -/

/-- `screenToWorld(screenPos, offset, scale)` from `canvasUtils.ts`:
`((p.x - offset.x) / scale, (p.y - offset.y) / scale)`. -/
def screenToWorld (screenPos offset : Point) (scale : ℚ) : Point :=
  { x := (screenPos.x - offset.x) / scale
    y := (screenPos.y - offset.y) / scale }

/-- `worldToScreen(worldPos, offset, scale)` from `canvasUtils.ts`:
`(p.x * scale + offset.x, p.y * scale + offset.y)`. -/
def worldToScreen (worldPos offset : Point) (scale : ℚ) : Point :=
  { x := worldPos.x * scale + offset.x
    y := worldPos.y * scale + offset.y }

/-! ## IEEE-style number model for the division-by-zero claim

JavaScript numbers are IEEE-754 doubles: dividing a nonzero finite value by
(positive) zero yields a signed infinity and dividing zero by zero yields
NaN.  `JSNum` models exactly that classification over exact rationals
(rounding and overflow of large finite values are not modelled; the claim
under study is only about finiteness). -/

inductive JSNum where
  | num (q : ℚ)
  | posInf
  | negInf
  | nan
deriving DecidableEq, Repr

namespace JSNum

/-- Finiteness of a JavaScript number (`Number.isFinite`). -/
def isFinite : JSNum → Bool
  | num _ => true
  | _ => false

/-- IEEE-754 subtraction restricted to the cases the transform uses
(finite values stay exact; any NaN operand propagates; infinities follow
IEEE rules, with `∞ - ∞ = NaN`). -/
def sub : JSNum → JSNum → JSNum
  | num a, num b => num (a - b)
  | num _, posInf => negInf
  | num _, negInf => posInf
  | posInf, num _ => posInf
  | negInf, num _ => negInf
  | posInf, posInf => nan
  | posInf, negInf => posInf
  | negInf, posInf => negInf
  | negInf, negInf => nan
  | nan, _ => nan
  | _, nan => nan

/-- IEEE-754 division with a positive zero: `x / 0` is `NaN` when `x = 0`
and a signed infinity otherwise; finite divisions are exact. -/
def div : JSNum → JSNum → JSNum
  | num a, num b =>
      if b = 0 then
        if a = 0 then nan else if 0 < a then posInf else negInf
      else num (a / b)
  | num _, posInf => num 0
  | num _, negInf => num 0
  | posInf, num b => if 0 ≤ b then posInf else negInf
  | negInf, num b => if 0 ≤ b then negInf else posInf
  | posInf, posInf => nan
  | posInf, negInf => nan
  | negInf, posInf => nan
  | negInf, negInf => nan
  | nan, _ => nan
  | _, nan => nan

end JSNum

/-- A point whose coordinates are IEEE-style JavaScript numbers. -/
structure JSPoint where
  x : JSNum
  y : JSNum
deriving DecidableEq, Repr

/-- `screenToWorld` re-read over the IEEE-style number model: the source
performs the division `(p - offset) / scale` with no guard on `scale`. -/
def screenToWorldJS (screenPos offset : JSPoint) (scale : JSNum) : JSPoint :=
  { x := (screenPos.x.sub offset.x).div scale
    y := (screenPos.y.sub offset.y).div scale }

/-! ## Viewport controller -/

/-- The fit-to-container computation of `CanvasBoard`'s image-activation
effect (`components/CanvasBoard.tsx`): with the hard-coded margin of 20
pixels per side, `fitScale = min((viewportW - 40) / imgW,
(viewportH - 40) / imgH, 1)` and the offset centers the scaled image.
Returns `(fitScale, offset)`. -/
def fitToContainer (imgW imgH viewportW viewportH : ℚ) : ℚ × Point :=
  let fitScale := min (min ((viewportW - 40) / imgW) ((viewportH - 40) / imgH)) 1
  (fitScale,
   { x := (viewportW - imgW * fitScale) / 2
     y := (viewportH - imgH * fitScale) / 2 })

/-- The margin used on each side of the container in `fitToContainer`
(the source subtracts `40 = 2 * 20` from each viewport dimension). -/
def canvasMargin : ℚ := 20

/-- The zoom-in button of the toolbar (`components/Toolbar.tsx`):
`setScale(scale * 1.1)`. -/
def zoomInScale (scale : ℚ) : ℚ := scale * (11 / 10)

/-- The zoom-out button of the toolbar (`components/Toolbar.tsx`):
`setScale(Math.max(0.1, scale * 0.9))`. -/
def zoomOutScale (scale : ℚ) : ℚ := max (1 / 10) (scale * (9 / 10))

/-! ## CanvasBoard and App session state (`components/CanvasBoard.tsx`, `App.tsx`) -/

/-- The decoded image element held by `CanvasBoard` in `loadedImg`
(an `HTMLImageElement` with its source and native dimensions). -/
structure LoadedImage where
  src : String
  width : ℕ
  height : ℕ
deriving DecidableEq, Repr

/-- The `CanvasBoard` component state the claims depend on: the loaded
image (`loadedImg`, `none` while no image is loaded), the pan `offset`,
the live annotation list (`detectedCells`) and the offscreen mask canvas
(`maskCanvasRef.current`). -/
structure CanvasBoardState where
  loadedImg : Option LoadedImage
  offset : Point
  detectedCells : List CellAnnotation
  maskCanvas : MaskCanvas
deriving DecidableEq, Repr

/-- The `snapshot` method exposed through `useImperativeHandle` in
`CanvasBoard`: `{ maskData: null, annotations: [] }` when no image is
loaded (the mask canvas element itself is created eagerly with
`document.createElement` and is never null), otherwise the current mask
encoding (`toDataURL`, modelled as the draw-op journal) and the live
`detectedCells` list. -/
def CanvasBoardState.snapshot (c : CanvasBoardState) :
    Option (List MaskOp) × List CellAnnotation :=
  match c.loadedImg with
  | none => (none, [])
  | some _ => (some c.maskCanvas.ops, c.detectedCells)

/-- The App-level session state (`App.tsx`): the image collection, the
active image id, whether the `CanvasBoard` ref is mounted
(`canvasRef.current` non-null), the canvas state, and the viewport scale,
brush size and active tool that `App` passes down as props. -/
structure AppState where
  images : List ProjectImage
  activeImageId : Option String
  canvasMounted : Bool
  canvas : CanvasBoardState
  scale : ℚ
  brushSize : ℚ
  activeTool : ToolMode
deriving DecidableEq, Repr

/-- `saveCurrentState` from `App.tsx`: when an image is active and the
canvas ref is mounted, take the canvas snapshot and write its mask
encoding and annotation list into the active image's record; otherwise do
nothing. -/
def saveCurrentState (s : AppState) : AppState :=
  match s.activeImageId, s.canvasMounted with
  | some aid, true =>
      let snap := s.canvas.snapshot
      { s with
        images := s.images.map fun img =>
          if img.id = aid then
            { img with maskData := snap.1, annotations := snap.2 }
          else img }
  | _, _ => s

/-- `handleImageSelect` from `App.tsx`: a no-op when the requested id is
already active; otherwise `saveCurrentState()` runs first and only then
the active-image id changes. -/
def handleImageSelect (s : AppState) (id : String) : AppState :=
  if some id = s.activeImageId then s
  else { saveCurrentState s with activeImageId := some id }

/-- The fixed brush fill of BRUSH mode in `paint` (`CanvasBoard`). -/
def brushFillStyle : String := "rgba(255, 255, 0, 1)"

/-- The fill set in ERASER mode in `paint` (irrelevant to the raster
under destination-out, but part of the source). -/
def eraserFillStyle : String := "rgba(0,0,0,1)"

/-- The `paint` function of `CanvasBoard`: a no-op when no image is
loaded; otherwise convert the screen position to world space with the
current offset and scale, and fill a disc of radius `brushSize / 2` on
the mask canvas — source-over in yellow for BRUSH, destination-out for
ERASER (the else branch of the tool test). -/
def paint (s : AppState) (screenPos : Point) : AppState :=
  match s.canvas.loadedImg with
  | none => s
  | some _ =>
      let worldPos := screenToWorld screenPos s.canvas.offset s.scale
      let op :=
        if s.activeTool = ToolMode.BRUSH then
          MaskOp.disc worldPos (s.brushSize / 2) CompositeMode.sourceOver brushFillStyle
        else
          MaskOp.disc worldPos (s.brushSize / 2) CompositeMode.destinationOut eraserFillStyle
      { s with
        canvas := { s.canvas with
          maskCanvas := { s.canvas.maskCanvas with
            ops := s.canvas.maskCanvas.ops ++ [op] } } }

/-- `handleUpload` from `App.tsx`, for one selected file after decoding:
`saveCurrentState()` runs synchronously in the change handler; the decode
callback then appends a fresh record with empty annotations and null
mask, runs `if (!activeImageId) setActiveImageId(newImg.id)` and then the
unconditional `setActiveImageId(newImg.id)` that follows it. -/
def handleUpload (s : AppState) (newId name src : String) (w h : ℕ) : AppState :=
  let s1 := saveCurrentState s
  let newImg : ProjectImage :=
    { id := newId, name := name, src := src, width := w, height := h
      annotations := [], maskData := none }
  { s1 with images := s1.images ++ [newImg], activeImageId := some newId }

/-! ## Detection service response handling (`services/gemini.ts`) -/

/-- The response handling of `detectObjects` in `services/gemini.ts`:
`response.text` is `text : Option String` (absent modelled as `none`);
`if (!jsonText) return []` treats both the absent and the empty string as
falsy; otherwise `JSON.parse(jsonText)` runs — modelled by the platform
parser `parse`, with `none` for a parse failure, in which case the thrown
error is logged and rethrown by the surrounding catch block
(`Except.error`). -/
def detectObjectsResponse (parse : String → Option (List CellAnnotation))
    (text : Option String) : Except Unit (List CellAnnotation) :=
  match text with
  | none => Except.ok []
  | some t =>
      if t = "" then Except.ok []
      else
        match parse t with
        | some data => Except.ok data
        | none => Except.error ()

/-! ## CSV export (`src/utils/canvasUtils.ts`) -/

/-- The header fields of `exportToCSV`. -/
def csvHeaders : List String :=
  ["id", "label", "confidence", "ymin", "xmin", "ymax", "xmax"]

/-- The four decimal digits of `n % 10000`, zero-padded, most significant
first — the fractional part `toFixed(4)` prints. -/
def fracDigits4 (n : ℕ) : String :=
  String.mk
    [Nat.digitChar (n / 1000 % 10), Nat.digitChar (n / 100 % 10),
     Nat.digitChar (n / 10 % 10), Nat.digitChar (n % 10)]

/-- `toFixed(4)` on a non-negative value: pick the integer `n` closest to
`q * 10^4`, larger on ties (ECMA-262 `Number.prototype.toFixed`), and
print `n / 10^4` with exactly four digits after the decimal point.
Binary-double representation error is not modelled; the claims under
study concern only the printed shape. -/
def toFixed4abs (q : ℚ) : String :=
  let n : ℕ := (⌊q * 10000 + 1 / 2⌋).toNat
  Nat.repr (n / 10000) ++ "." ++ fracDigits4 (n % 10000)

/-- `toFixed(4)`: ECMA-262 extracts the sign first and formats the
absolute value. -/
def toFixed4 (q : ℚ) : String :=
  if q < 0 then "-" ++ toFixed4abs (-q) else toFixed4abs q

/-- One data row of `exportToCSV`: the annotation's id, label, and the
confidence and four bbox components each through `toFixed(4)`, joined
with commas. -/
def csvRow (ann : CellAnnotation) : String :=
  String.intercalate ","
    [ann.id, ann.label, toFixed4 ann.confidence,
     toFixed4 ann.bbox.ymin, toFixed4 ann.bbox.xmin,
     toFixed4 ann.bbox.ymax, toFixed4 ann.bbox.xmax]

/-- The list `[headers.join(','), ...rows.map(r => r.join(','))]` that
`exportToCSV` builds before joining with newlines: the header line
followed by one row per annotation, in list order. -/
def csvLines (image : ProjectImage) : List String :=
  String.intercalate "," csvHeaders :: image.annotations.map csvRow

/-- The full CSV content of `exportToCSV`: the lines joined with a
newline character. -/
def csvContent (image : ProjectImage) : String :=
  String.intercalate "\n" (csvLines image)

/-- The characters after the last decimal point of a string (the whole
string when it has no point): the decimal places a reader of the CSV
sees. -/
def decimalTail (s : String) : List Char :=
  (s.toList.reverse.takeWhile (fun c => c ≠ '.')).reverse

/-! ## Concrete fixtures used by witnesses and counterexamples -/

/-- A sample region annotation. -/
def demoAnn : CellAnnotation :=
  { id := "c1", bbox := ⟨1 / 10, 1 / 5, 3 / 10, 2 / 5⟩, confidence := 9 / 10
    label := "cell" }

/-- A second sample region annotation. -/
def demoAnn2 : CellAnnotation :=
  { id := "c2", bbox := ⟨0, 0, 1, 1⟩, confidence := 1 / 2, label := "nucleus" }

/-- A sample project image with no stored mask or annotations. -/
def imgA : ProjectImage :=
  { id := "A", name := "a.png", src := "dataA", width := 800, height := 600
    annotations := [], maskData := none }

/-- A second sample project image. -/
def imgB : ProjectImage :=
  { id := "B", name := "b.png", src := "dataB", width := 640, height := 480
    annotations := [], maskData := none }

/-- A sample project image carrying two annotations, for the CSV claim. -/
def img2 : ProjectImage :=
  { id := "E", name := "e.png", src := "dataE", width := 800, height := 600
    annotations := [demoAnn, demoAnn2], maskData := none }

/-- A canvas state with image `imgA` loaded, one live annotation and one
brush stroke on the mask. -/
def liveCanvas : CanvasBoardState :=
  { loadedImg := some ⟨"dataA", 800, 600⟩, offset := ⟨10, 20⟩
    detectedCells := [demoAnn]
    maskCanvas :=
      { width := 800, height := 600
        ops := [MaskOp.disc ⟨100, 100⟩ 5 CompositeMode.sourceOver brushFillStyle] } }

/-- A canvas state with nothing loaded. -/
def emptyCanvas : CanvasBoardState :=
  { loadedImg := none, offset := ⟨0, 0⟩, detectedCells := [], maskCanvas := ⟨0, 0, []⟩ }

/-- A session with `imgA` active and live canvas edits pending. -/
def stateLive : AppState :=
  { images := [imgA, imgB], activeImageId := some "A", canvasMounted := true
    canvas := liveCanvas, scale := 1, brushSize := 10, activeTool := ToolMode.BRUSH }

/-- The same session with the eraser selected. -/
def stateEraser : AppState := { stateLive with activeTool := ToolMode.ERASER }

/-- A session with no active image and nothing loaded. -/
def stateEmpty : AppState :=
  { images := [imgA], activeImageId := none, canvasMounted := true
    canvas := emptyCanvas, scale := 1, brushSize := 10, activeTool := ToolMode.BRUSH }

/-- A platform parser that fails on every input (the behaviour of
`JSON.parse` on unparseable text). -/
def failParse : String → Option (List CellAnnotation) := fun _ => none

/-! ## Claim C2: round-trip of the coordinate transforms -/

/-- C2: for every point `p`, offset `o` and scale `s > 0`,
`screenToWorld (worldToScreen p o s) o s = p` — over the exact-rational
model of JavaScript numbers the two transforms are exact inverses, so the
round trip holds (a fortiori to floating-point tolerance). -/
theorem C2_transform_round_trip (p o : Point) (s : ℚ) (hs : 0 < s) :
    screenToWorld (worldToScreen p o s) o s = p := by
  have hs0 : s ≠ 0 := ne_of_gt hs
  obtain ⟨px, py⟩ := p
  obtain ⟨ox, oy⟩ := o
  simp only [screenToWorld, worldToScreen, Point.mk.injEq]
  constructor <;> field_simp

/-- Witness for C2 at `p = (3, 4)`, `o = (5, 6)`, `s = 2`. -/
theorem C2_transform_round_trip_witness :
    screenToWorld (worldToScreen ⟨3, 4⟩ ⟨5, 6⟩ 2) ⟨5, 6⟩ 2 = (⟨3, 4⟩ : Point) :=
  C2_transform_round_trip ⟨3, 4⟩ ⟨5, 6⟩ 2 (by norm_num)

/-! ## Claim C4: fit to container -/

/-- C4: for positive image and container dimensions, `fitToContainer`
returns scale `min ((cW − 2·margin)/imgW, (cH − 2·margin)/imgH, 1)` with
the code's margin of 20, the scaled image dimensions never exceed the
container dimensions minus the margins, the scale never exceeds 1, and
the offset centers the scaled image (the scaled image's center coincides
with the container's center on both axes). -/
theorem C4_fitToContainer_spec (imgW imgH cW cH : ℚ)
    (hW : 0 < imgW) (hH : 0 < imgH) (hcW : 0 < cW) (hcH : 0 < cH) :
    (fitToContainer imgW imgH cW cH).1
      = min (min ((cW - 2 * canvasMargin) / imgW) ((cH - 2 * canvasMargin) / imgH)) 1 ∧
    (fitToContainer imgW imgH cW cH).1 * imgW ≤ cW - 2 * canvasMargin ∧
    (fitToContainer imgW imgH cW cH).1 * imgH ≤ cH - 2 * canvasMargin ∧
    (fitToContainer imgW imgH cW cH).1 ≤ 1 ∧
    (fitToContainer imgW imgH cW cH).2.x + imgW * (fitToContainer imgW imgH cW cH).1 / 2
      = cW / 2 ∧
    (fitToContainer imgW imgH cW cH).2.y + imgH * (fitToContainer imgW imgH cW cH).1 / 2
      = cH / 2 := by
  have hm : (2 : ℚ) * canvasMargin = 40 := by norm_num [canvasMargin]
  refine ⟨by rw [hm]; rfl, ?_, ?_, ?_, ?_, ?_⟩
  · have h1 : (fitToContainer imgW imgH cW cH).1 ≤ (cW - 40) / imgW :=
      le_trans (min_le_left _ _) (min_le_left _ _)
    rw [hm]
    exact (le_div_iff₀ hW).mp h1
  · have h1 : (fitToContainer imgW imgH cW cH).1 ≤ (cH - 40) / imgH :=
      le_trans (min_le_left _ _) (min_le_right _ _)
    rw [hm]
    exact (le_div_iff₀ hH).mp h1
  · exact min_le_right _ _
  · show (cW - imgW * (fitToContainer imgW imgH cW cH).1) / 2
      + imgW * (fitToContainer imgW imgH cW cH).1 / 2 = cW / 2
    ring
  · show (cH - imgH * (fitToContainer imgW imgH cW cH).1) / 2
      + imgH * (fitToContainer imgW imgH cW cH).1 / 2 = cH / 2
    ring

/-- Witness for C4 at an 800×600 image in a 1000×700 container. -/
theorem C4_fitToContainer_spec_witness :
    (fitToContainer 800 600 1000 700).1
      = min (min ((1000 - 2 * canvasMargin) / 800) ((700 - 2 * canvasMargin) / 600)) 1 ∧
    (fitToContainer 800 600 1000 700).1 * 800 ≤ 1000 - 2 * canvasMargin ∧
    (fitToContainer 800 600 1000 700).1 * 600 ≤ 700 - 2 * canvasMargin ∧
    (fitToContainer 800 600 1000 700).1 ≤ 1 ∧
    (fitToContainer 800 600 1000 700).2.x + 800 * (fitToContainer 800 600 1000 700).1 / 2
      = 1000 / 2 ∧
    (fitToContainer 800 600 1000 700).2.y + 600 * (fitToContainer 800 600 1000 700).1 / 2
      = 700 / 2 :=
  C4_fitToContainer_spec 800 600 1000 700 (by norm_num) (by norm_num) (by norm_num)
    (by norm_num)

/-! ## Claim C9: zoom clamping -/

/-- C9 counterexample: the zoom-in button applies `scale * 1.1` with no
clamp, so from the reachable scale `1/20` (e.g. a fit of a large image in
a small container) a zoom-in lands at `0.055 < 0.1` — the claim that the
scale after any zoom action is at least `0.1` fails. -/
theorem C9_zoomIn_below_min_counterexample : zoomInScale (1 / 20) < 1 / 10 := by
  norm_num [zoomInScale]

/-- C9 amended: zoom is multiplicative; the zoom-out result is always
clamped to at least `0.1`, and the zoom-in result (unclamped) stays at or
above `0.1` whenever the current scale is already at least `0.1`. -/
theorem C9_zoom_min_bound (s t : ℚ) (ht : 1 / 10 ≤ t) :
    1 / 10 ≤ zoomOutScale s ∧ 1 / 10 ≤ zoomInScale t := by
  constructor
  · exact le_max_left _ _
  · have h0 : (0 : ℚ) ≤ t := le_trans (by norm_num) ht
    calc (1 : ℚ) / 10 ≤ t := ht
      _ ≤ t * (11 / 10) := le_mul_of_one_le_right h0 (by norm_num)

/-- Witness for C9 amended at `s = 1/20`, `t = 1/5`. -/
theorem C9_zoom_min_bound_witness :
    1 / 10 ≤ zoomOutScale (1 / 20) ∧ 1 / 10 ≤ zoomInScale (1 / 5) :=
  C9_zoom_min_bound (1 / 20) (1 / 5) (by norm_num)

/-! ## Claim C10: unguarded division by the scale -/

/-- C10: `screenToWorld` divides by its scale argument without a guard;
over the IEEE-style model, finite inputs with a nonzero scale yield
finite coordinates, while a zero scale yields non-finite (infinite or
NaN) coordinates for every input point. -/
theorem C10_screenToWorld_scale_zero (px py ox oy s : ℚ) (hs : s ≠ 0) :
    ((screenToWorldJS ⟨JSNum.num px, JSNum.num py⟩ ⟨JSNum.num ox, JSNum.num oy⟩
        (JSNum.num s)).x.isFinite = true ∧
      (screenToWorldJS ⟨JSNum.num px, JSNum.num py⟩ ⟨JSNum.num ox, JSNum.num oy⟩
        (JSNum.num s)).y.isFinite = true) ∧
    ((screenToWorldJS ⟨JSNum.num px, JSNum.num py⟩ ⟨JSNum.num ox, JSNum.num oy⟩
        (JSNum.num 0)).x.isFinite = false ∧
      (screenToWorldJS ⟨JSNum.num px, JSNum.num py⟩ ⟨JSNum.num ox, JSNum.num oy⟩
        (JSNum.num 0)).y.isFinite = false) := by
  simp only [screenToWorldJS, JSNum.sub, JSNum.div]
  refine ⟨⟨?_, ?_⟩, ?_, ?_⟩
  · rw [if_neg hs]; rfl
  · rw [if_neg hs]; rfl
  · split_ifs <;> rfl
  · split_ifs <;> rfl

/-- Witness for C10 at `p = (7, 7)`, `o = (3, 7)`, nonzero scale `2`. -/
theorem C10_screenToWorld_scale_zero_witness :
    ((screenToWorldJS ⟨JSNum.num 7, JSNum.num 7⟩ ⟨JSNum.num 3, JSNum.num 7⟩
        (JSNum.num 2)).x.isFinite = true ∧
      (screenToWorldJS ⟨JSNum.num 7, JSNum.num 7⟩ ⟨JSNum.num 3, JSNum.num 7⟩
        (JSNum.num 2)).y.isFinite = true) ∧
    ((screenToWorldJS ⟨JSNum.num 7, JSNum.num 7⟩ ⟨JSNum.num 3, JSNum.num 7⟩
        (JSNum.num 0)).x.isFinite = false ∧
      (screenToWorldJS ⟨JSNum.num 7, JSNum.num 7⟩ ⟨JSNum.num 3, JSNum.num 7⟩
        (JSNum.num 0)).y.isFinite = false) :=
  C10_screenToWorld_scale_zero 7 7 3 7 2 (by norm_num)

/-! ## Claim C1: snapshot before every image switch -/

/-- C1: whenever the active image is switched to a different image with a
mounted canvas and a loaded image, `handleImageSelect` factors as
`saveCurrentState` followed by the id change — the outgoing image's
record receives the live mask encoding and live annotation list, and
only then does the active-image id change. -/
theorem C1_switch_snapshots_outgoing (s : AppState) (targetId aid : String)
    (hactive : s.activeImageId = some aid) (hneq : targetId ≠ aid)
    (hmounted : s.canvasMounted = true) (img : LoadedImage)
    (hload : s.canvas.loadedImg = some img) :
    handleImageSelect s targetId
      = { saveCurrentState s with activeImageId := some targetId } ∧
    (handleImageSelect s targetId).activeImageId = some targetId ∧
    ∀ rec ∈ (handleImageSelect s targetId).images, rec.id = aid →
      rec.maskData = some s.canvas.maskCanvas.ops ∧
      rec.annotations = s.canvas.detectedCells := by
  obtain ⟨imgs, act, cm, cv, sc, bs, tool⟩ := s
  obtain ⟨li, off, cells, mc⟩ := cv
  simp only at hactive hmounted hload
  subst hactive hmounted hload
  have hif : ¬(some targetId = some aid) := by simp [hneq]
  refine ⟨?_, ?_, ?_⟩
  · unfold handleImageSelect
    rw [if_neg hif]
  · unfold handleImageSelect
    rw [if_neg hif]
  · intro rec hmem hid
    have hmem' : rec ∈ imgs.map (fun img0 =>
        if img0.id = aid then
          { img0 with maskData := some mc.ops, annotations := cells }
        else img0) := by
      unfold handleImageSelect at hmem
      rw [if_neg hif] at hmem
      exact hmem
    rcases List.mem_map.mp hmem' with ⟨img0, hin, hfe⟩
    by_cases hc : img0.id = aid
    · rw [if_pos hc] at hfe
      rw [← hfe]
      exact ⟨rfl, rfl⟩
    · rw [if_neg hc] at hfe
      rw [← hfe] at hid
      exact absurd hid hc

/-- Witness for C1: switching from the live image `A` to `B` in
`stateLive` snapshots `A`'s live mask and annotations first. -/
theorem C1_switch_snapshots_outgoing_witness :
    handleImageSelect stateLive "B"
      = { saveCurrentState stateLive with activeImageId := some "B" } ∧
    (handleImageSelect stateLive "B").activeImageId = some "B" ∧
    ∀ rec ∈ (handleImageSelect stateLive "B").images, rec.id = "A" →
      rec.maskData = some stateLive.canvas.maskCanvas.ops ∧
      rec.annotations = stateLive.canvas.detectedCells :=
  C1_switch_snapshots_outgoing stateLive "B" "A" rfl (by decide) rfl
    ⟨"dataA", 800, 600⟩ rfl

/-! ## Claim C3: painting and snapshotting with no image are no-ops -/

/-- C3: with no active image and nothing loaded, `paint` leaves the whole
session state unchanged and `saveCurrentState` leaves every project-image
record unchanged (in particular no stored mask or annotation list is
overwritten); both are total functions, so neither throws. -/
theorem C3_no_image_noop (s : AppState) (screenPos : Point)
    (hid : s.activeImageId = none) (himg : s.canvas.loadedImg = none) :
    paint s screenPos = s ∧ saveCurrentState s = s := by
  obtain ⟨imgs, act, cm, cv, sc, bs, tool⟩ := s
  obtain ⟨li, off, cells, mc⟩ := cv
  simp only at hid himg
  subst hid himg
  exact ⟨rfl, rfl⟩

/-- Witness for C3 on the empty session `stateEmpty`. -/
theorem C3_no_image_noop_witness :
    paint stateEmpty ⟨5, 5⟩ = stateEmpty ∧ saveCurrentState stateEmpty = stateEmpty :=
  C3_no_image_noop stateEmpty ⟨5, 5⟩ rfl rfl

/-! ## Claim C5: the eraser never touches the annotation list -/

/-- C5: one ERASER paint operation appends exactly one destination-out
disc at the stroke's world position to the mask-layer journal, and
changes nothing else: the live annotation list is identical before and
after, the project-image records are untouched, and the mask dimensions
are unchanged. -/
theorem C5_eraser_preserves_annotations (s : AppState) (screenPos : Point)
    (img : LoadedImage) (hload : s.canvas.loadedImg = some img)
    (htool : s.activeTool = ToolMode.ERASER) :
    (paint s screenPos).canvas.detectedCells = s.canvas.detectedCells ∧
    (paint s screenPos).images = s.images ∧
    (paint s screenPos).activeImageId = s.activeImageId ∧
    (paint s screenPos).canvas.maskCanvas.ops
      = s.canvas.maskCanvas.ops ++
        [MaskOp.disc (screenToWorld screenPos s.canvas.offset s.scale)
          (s.brushSize / 2) CompositeMode.destinationOut eraserFillStyle] ∧
    (paint s screenPos).canvas.maskCanvas.width = s.canvas.maskCanvas.width ∧
    (paint s screenPos).canvas.maskCanvas.height = s.canvas.maskCanvas.height := by
  obtain ⟨imgs, act, cm, cv, sc, bs, tool⟩ := s
  obtain ⟨li, off, cells, mc⟩ := cv
  simp only at hload htool
  subst hload htool
  exact ⟨rfl, rfl, rfl, rfl, rfl, rfl⟩

/-- Witness for C5: one eraser stroke on `stateEraser` at screen
position `(110, 120)`. -/
theorem C5_eraser_preserves_annotations_witness :
    (paint stateEraser ⟨110, 120⟩).canvas.detectedCells
      = stateEraser.canvas.detectedCells ∧
    (paint stateEraser ⟨110, 120⟩).images = stateEraser.images ∧
    (paint stateEraser ⟨110, 120⟩).activeImageId = stateEraser.activeImageId ∧
    (paint stateEraser ⟨110, 120⟩).canvas.maskCanvas.ops
      = stateEraser.canvas.maskCanvas.ops ++
        [MaskOp.disc (screenToWorld ⟨110, 120⟩ stateEraser.canvas.offset stateEraser.scale)
          (stateEraser.brushSize / 2) CompositeMode.destinationOut eraserFillStyle] ∧
    (paint stateEraser ⟨110, 120⟩).canvas.maskCanvas.width
      = stateEraser.canvas.maskCanvas.width ∧
    (paint stateEraser ⟨110, 120⟩).canvas.maskCanvas.height
      = stateEraser.canvas.maskCanvas.height :=
  C5_eraser_preserves_annotations stateEraser ⟨110, 120⟩ ⟨"dataA", 800, 600⟩ rfl rfl

/-! ## Claim C6: malformed detection responses -/

/-- C6 counterexample: on response text that the platform JSON parser
rejects, `detectObjects` does not return an empty list — the parse error
propagates out of the function (it is rethrown by its catch block), so
the claim that every absent-or-unparseable response yields zero
detections fails. -/
theorem C6_unparseable_raises_counterexample :
    detectObjectsResponse failParse (some "not json") = Except.error () := rfl

/-- C6 amended: an absent (or empty, both falsy) response text yields an
empty detection list without error; unparseable non-empty response text
raises the parse error instead of returning a result. -/
theorem C6_detect_response (parse : String → Option (List CellAnnotation))
    (t : String) (ht : t ≠ "") (hp : parse t = none) :
    detectObjectsResponse parse none = Except.ok [] ∧
    detectObjectsResponse parse (some "") = Except.ok [] ∧
    detectObjectsResponse parse (some t) = Except.error () := by
  refine ⟨rfl, rfl, ?_⟩
  simp only [detectObjectsResponse]
  rw [if_neg ht, hp]

/-- Witness for C6 amended with the always-failing parser and the
non-empty text `"x"`. -/
theorem C6_detect_response_witness :
    detectObjectsResponse failParse none = Except.ok [] ∧
    detectObjectsResponse failParse (some "") = Except.ok [] ∧
    detectObjectsResponse failParse (some "x") = Except.error () :=
  C6_detect_response failParse "x" (by decide) rfl

/-! ## Claim C7: upload and the active image -/

/-- C7 counterexample: with image `A` active, uploading a new image `C`
changes the active-image id to `C` — `handleUpload` ends with an
unconditional `setActiveImageId(newImg.id)`, so it does not leave the
active image unchanged when one is already active. -/
theorem C7_upload_switches_counterexample :
    stateLive.activeImageId = some "A" ∧
    (handleUpload stateLive "C" "c.png" "dataC" 640 480).activeImageId = some "C" :=
  ⟨rfl, rfl⟩

/-- C7 amended: `handleUpload` appends a record with empty annotations
and null mask to the image collection (after first snapshotting the
outgoing state via `saveCurrentState`), and always sets the active-image
id to the newly uploaded image's id, whether or not an image was active
before. -/
theorem C7_upload_appends_and_activates (s : AppState) (newId name src : String)
    (w h : ℕ) :
    (handleUpload s newId name src w h).images
      = (saveCurrentState s).images ++
        [{ id := newId, name := name, src := src, width := w, height := h
           annotations := [], maskData := none }] ∧
    (handleUpload s newId name src w h).activeImageId = some newId :=
  ⟨rfl, rfl⟩

/-! ## Claim C8: CSV export shape -/

/-- `takeWhile` runs through a block that satisfies the predicate and
stops at the first failure. -/
theorem takeWhile_all_append (p : Char → Bool) (l₁ : List Char) (x : Char)
    (l₂ : List Char) (h : ∀ a ∈ l₁, p a = true) (hx : p x = false) :
    (l₁ ++ x :: l₂).takeWhile p = l₁ := by
  induction l₁ with
  | nil => simp [List.takeWhile_cons, hx]
  | cons a as ih =>
      have ha : p a = true := h a (by simp)
      simp [List.takeWhile_cons, ha, ih fun b hb => h b (by simp [hb])]

/-- Decimal digit characters are digits. -/
theorem digitChar_isDigit (d : ℕ) (h : d < 10) : (Nat.digitChar d).isDigit = true := by
  interval_cases d <;> decide

/-- Decimal digit characters are never the decimal point. -/
theorem digitChar_ne_dot (d : ℕ) (h : d < 10) : Nat.digitChar d ≠ '.' := by
  interval_cases d <;> decide

/-- The character list behind `fracDigits4`. -/
theorem fracDigits4_toList (m : ℕ) :
    (fracDigits4 m).toList
      = [Nat.digitChar (m / 1000 % 10), Nat.digitChar (m / 100 % 10),
         Nat.digitChar (m / 10 % 10), Nat.digitChar (m % 10)] := rfl

/-- The decimal tail of any string of the form `pre ++ "." ++ fracDigits4 m`
is exactly the four fractional digits. -/
theorem decimalTail_pre_frac (pre : String) (m : ℕ) :
    decimalTail (pre ++ "." ++ fracDigits4 m) = (fracDigits4 m).toList := by
  unfold decimalTail
  have hdata : (pre ++ "." ++ fracDigits4 m).toList
      = (pre.toList ++ ['.']) ++ (fracDigits4 m).toList := rfl
  rw [hdata]
  have hrev : ((pre.toList ++ ['.']) ++ (fracDigits4 m).toList).reverse
      = (fracDigits4 m).toList.reverse ++ '.' :: pre.toList.reverse := by
    simp
  rw [hrev, takeWhile_all_append _ _ _ _ ?hall (by decide), List.reverse_reverse]
  case hall =>
    intro a ha
    rw [List.mem_reverse, fracDigits4_toList] at ha
    simp only [List.mem_cons, List.not_mem_nil, or_false] at ha
    have hne : a ≠ '.' := by
      rcases ha with h | h | h | h
      all_goals
        rw [h]
        exact digitChar_ne_dot _ (Nat.mod_lt _ (by norm_num))
    exact decide_eq_true hne

/-- Every `toFixed(4)` output is some prefix, a decimal point, and four
fractional digits. -/
theorem toFixed4_decomp (q : ℚ) : ∃ pre m, toFixed4 q = pre ++ "." ++ fracDigits4 m := by
  have hassoc : ∀ a b c : String, a ++ b ++ c = a ++ (b ++ c) := by
    intro a b c
    apply String.ext
    show (a.toList ++ b.toList) ++ c.toList = a.toList ++ (b.toList ++ c.toList)
    exact List.append_assoc _ _ _
  unfold toFixed4 toFixed4abs
  split_ifs with h
  · refine ⟨"-" ++ Nat.repr ((⌊-q * 10000 + 1 / 2⌋).toNat / 10000),
      (⌊-q * 10000 + 1 / 2⌋).toNat % 10000, ?_⟩
    rw [hassoc, hassoc, hassoc]
  · exact ⟨Nat.repr ((⌊q * 10000 + 1 / 2⌋).toNat / 10000),
      (⌊q * 10000 + 1 / 2⌋).toNat % 10000, rfl⟩

/-- `toFixed(4)` prints exactly four decimal places, all digit
characters. -/
theorem toFixed4_four_decimals (q : ℚ) :
    (decimalTail (toFixed4 q)).length = 4 ∧
    ∀ c ∈ decimalTail (toFixed4 q), c.isDigit = true := by
  obtain ⟨pre, m, hq⟩ := toFixed4_decomp q
  rw [hq, decimalTail_pre_frac]
  refine ⟨rfl, ?_⟩
  intro c hc
  rw [fracDigits4_toList] at hc
  simp only [List.mem_cons, List.not_mem_nil, or_false] at hc
  rcases hc with h | h | h | h
  all_goals
    rw [h]
    exact digitChar_isDigit _ (Nat.mod_lt _ (by norm_num))

/-- C8: the CSV export content is the newline-join of exactly `n + 1`
lines for `n` annotations: the header
`id,label,confidence,ymin,xmin,ymax,xmax` followed by one row per
annotation in list order, and every `toFixed(4)`-formatted numeric field
(confidence and the four bbox components, as assembled by `csvRow`)
carries exactly four decimal places. -/
theorem C8_csv_shape (image : ProjectImage) (i : ℕ)
    (hi : i < image.annotations.length) (q : ℚ) :
    (csvLines image).length = image.annotations.length + 1 ∧
    csvContent image = String.intercalate "\n" (csvLines image) ∧
    (csvLines image).head? = some "id,label,confidence,ymin,xmin,ymax,xmax" ∧
    (csvLines image).get? (i + 1) = some (csvRow (image.annotations.get ⟨i, hi⟩)) ∧
    (decimalTail (toFixed4 q)).length = 4 ∧
    (∀ c ∈ decimalTail (toFixed4 q), c.isDigit = true) := by
  refine ⟨by simp [csvLines], rfl, rfl, ?_, (toFixed4_four_decimals q).1,
    (toFixed4_four_decimals q).2⟩
  show (image.annotations.map csvRow).get? i = some (csvRow (image.annotations.get ⟨i, hi⟩))
  rw [List.get?_map, List.get?_eq_get hi]
  rfl

/-- Witness for C8 on the two-annotation image `img2`: three lines, the
exact header, the first data row, and four decimal places on the sample
numeric value `9/10`. -/
theorem C8_csv_shape_witness :
    (csvLines img2).length = 3 ∧
    csvContent img2 = String.intercalate "\n" (csvLines img2) ∧
    (csvLines img2).head? = some "id,label,confidence,ymin,xmin,ymax,xmax" ∧
    (csvLines img2).get? 1
      = some (csvRow (img2.annotations.get ⟨0, by decide⟩)) ∧
    (decimalTail (toFixed4 (9 / 10))).length = 4 ∧
    (∀ c ∈ decimalTail (toFixed4 (9 / 10)), c.isDigit = true) :=
  C8_csv_shape img2 0 (by decide) (9 / 10)

end CellLabeller
